import Mathlib

/-!
Shallow embedding of the energy-calculation pipeline of `src/app.py`
(GEOTHARMAL-ENERGY-app).  The six slider inputs are modelled as rationals,
the arithmetic pipeline as pure functions, and the 24-hour chart series
over the reals (it uses `sin`).
-/

namespace GeoApp

/-- `geothermal_energy(temp) = 0.5 * temp`  (src/app.py line 21). -/
def geothermal_energy (temp : ℚ) : ℚ := 0.5 * temp

/-- `wasted_energy_recovery(wasted) = 0.7 * wasted`  (src/app.py line 24). -/
def wasted_energy_recovery (wasted : ℚ) : ℚ := 0.7 * wasted

/-- `calculate_teg_recovery(usage, device_pct, system_pct)`  (src/app.py line 27). -/
def calculate_teg_recovery (usage device_pct system_pct : ℚ) : ℚ :=
  usage * (device_pct + system_pct) / 100

/-- `monitor_pipe(health)`  (src/app.py lines 30-36): three-way threshold
classifier returning a status message and an efficiency factor. -/
def monitor_pipe (health : ℚ) : String × ℚ :=
  if health < 40 then ("⚠️ Warning: Pipe needs replacement!", 0.6)
  else if health < 70 then ("🔶 Pipe condition moderate. Monitoring closely.", 0.8)
  else ("✅ Pipe health optimal.", 1.0)

/-- The six slider inputs (src/app.py lines 13-18). -/
structure Inputs where
  geothermal_temp : ℚ
  wasted_energy_input : ℚ
  teg_device_level : ℚ
  teg_system_level : ℚ
  pipe_health : ℚ
  storage_capacity : ℚ
deriving DecidableEq

/-- The seven numeric outputs plus the status string (src/app.py lines 39-49). -/
structure Outputs where
  geo_output : ℚ
  waste_output : ℚ
  teg_recovery : ℚ
  pipe_status_msg : String
  pipe_efficiency : ℚ
  total_output : ℚ
  charge : ℚ
  discharge : ℚ
deriving DecidableEq

/-- The whole evaluation pipeline (src/app.py lines 39-49), executed top to
bottom exactly as in the script. -/
def evaluate (i : Inputs) : Outputs :=
  let geo_output := geothermal_energy i.geothermal_temp
  let waste_output := wasted_energy_recovery i.wasted_energy_input
  let teg_recovery :=
    calculate_teg_recovery (waste_output + geo_output) i.teg_device_level i.teg_system_level
  let pr := monitor_pipe i.pipe_health
  let total_output := (geo_output + waste_output + teg_recovery) * pr.2
  let charge := min total_output i.storage_capacity
  let discharge := charge * 0.75
  { geo_output := geo_output
    waste_output := waste_output
    teg_recovery := teg_recovery
    pipe_status_msg := pr.1
    pipe_efficiency := pr.2
    total_output := total_output
    charge := charge
    discharge := discharge }

/-- The charted 24-hour series (src/app.py lines 67-68):
`generation = total_output * np.sin(np.pi * hours / 24)**2` at hour `h`. -/
noncomputable def generation (total_output : ℝ) (h : ℕ) : ℝ :=
  total_output * Real.sin (Real.pi * h / 24) ^ 2

/-- The six input ranges from the sliders (§3 of the spec, src/app.py lines 13-18). -/
def InRange (i : Inputs) : Prop :=
  300 ≤ i.geothermal_temp ∧ i.geothermal_temp ≤ 900 ∧
  10 ≤ i.wasted_energy_input ∧ i.wasted_energy_input ≤ 200 ∧
  0 ≤ i.teg_device_level ∧ i.teg_device_level ≤ 50 ∧
  0 ≤ i.teg_system_level ∧ i.teg_system_level ≤ 50 ∧
  0 ≤ i.pipe_health ∧ i.pipe_health ≤ 100 ∧
  100 ≤ i.storage_capacity ∧ i.storage_capacity ≤ 1000

instance (i : Inputs) : Decidable (InRange i) := by
  unfold InRange; infer_instance

/-- C1: For every six inputs, the pipeline computes
`total_output = (geo_output + waste_output + teg_recovery) * pipe_efficiency`,
then `charge = min(total_output, storage_capacity)`, and
`discharge = 0.75 * charge` exactly. -/
theorem pipeline_storage_equations (i : Inputs) :
    (evaluate i).total_output =
      ((evaluate i).geo_output + (evaluate i).waste_output + (evaluate i).teg_recovery) *
        (evaluate i).pipe_efficiency ∧
    (evaluate i).charge = min ((evaluate i).total_output) i.storage_capacity ∧
    (evaluate i).discharge = 0.75 * (evaluate i).charge := by
  refine ⟨rfl, rfl, ?_⟩
  show min _ _ * (0.75 : ℚ) = (0.75 : ℚ) * min _ _
  exact mul_comm _ _

/-- C2: `monitor_pipe` is a three-way threshold classifier with boundaries 40
and 70 falling into the better bucket, and the stated concrete evaluations at
39.9, 40, 69.9, 70 and 100. -/
theorem monitor_pipe_classifier (health : ℚ) :
    (health < 40 → monitor_pipe health = ("⚠️ Warning: Pipe needs replacement!", 0.6)) ∧
    (40 ≤ health → health < 70 →
      monitor_pipe health = ("🔶 Pipe condition moderate. Monitoring closely.", 0.8)) ∧
    (70 ≤ health → monitor_pipe health = ("✅ Pipe health optimal.", 1.0)) ∧
    (monitor_pipe 39.9).2 = 0.6 ∧ (monitor_pipe 40).2 = 0.8 ∧
    (monitor_pipe 69.9).2 = 0.8 ∧ (monitor_pipe 70).2 = 1.0 ∧
    (monitor_pipe 100).2 = 1.0 := by
  refine ⟨?_, ?_, ?_, by norm_num [monitor_pipe], by norm_num [monitor_pipe],
    by norm_num [monitor_pipe], by norm_num [monitor_pipe], by norm_num [monitor_pipe]⟩
  · intro h; simp [monitor_pipe, h]
  · intro h1 h2; simp [monitor_pipe, h2, not_lt.mpr h1]
  · intro h; simp [monitor_pipe, not_lt.mpr (by linarith : (40:ℚ) ≤ health),
      not_lt.mpr (by linarith : (70:ℚ) ≤ health)]

/-- Witness for C2 at health = 35. -/
theorem monitor_pipe_classifier_witness :
    (35 : ℚ) < 40 ∧ monitor_pipe 35 = ("⚠️ Warning: Pipe needs replacement!", 0.6) :=
  ⟨by norm_num, (monitor_pipe_classifier 35).1 (by norm_num)⟩

/-- C3: `teg_recovery = usage * (device_pct + system_pct) / 100` with
`usage = geothermal_energy(temp) + wasted_energy_recovery(wasted)`; it is
linear in `device_pct` and in `system_pct` (constant slope `usage / 100` in
each, jointly additive and homogeneous in the pair), genuinely linear in
`usage`, and `teg_recovery(100, 0, 0) = 0`. -/
theorem teg_recovery_formula_linear :
    (∀ i : Inputs, (evaluate i).teg_recovery =
      (geothermal_energy i.geothermal_temp + wasted_energy_recovery i.wasted_energy_input) *
        (i.teg_device_level + i.teg_system_level) / 100) ∧
    (∀ u d s δ : ℚ,
      calculate_teg_recovery u (d + δ) s = calculate_teg_recovery u d s + u * δ / 100 ∧
      calculate_teg_recovery u d (s + δ) = calculate_teg_recovery u d s + u * δ / 100) ∧
    (∀ u d d' s s' c : ℚ,
      calculate_teg_recovery u (d + d') (s + s') =
        calculate_teg_recovery u d s + calculate_teg_recovery u d' s' ∧
      calculate_teg_recovery u (c * d) (c * s) = c * calculate_teg_recovery u d s) ∧
    (∀ u u' d s c : ℚ,
      calculate_teg_recovery (u + u') d s =
        calculate_teg_recovery u d s + calculate_teg_recovery u' d s ∧
      calculate_teg_recovery (c * u) d s = c * calculate_teg_recovery u d s) ∧
    calculate_teg_recovery 100 0 0 = 0 := by
  refine ⟨?_, ?_, ?_, ?_, by norm_num [calculate_teg_recovery]⟩
  · intro i
    simp only [evaluate, calculate_teg_recovery, geothermal_energy, wasted_energy_recovery]
    ring
  · intro u d s δ
    unfold calculate_teg_recovery
    constructor <;> ring
  · intro u d d' s s' c
    unfold calculate_teg_recovery
    constructor <;> ring
  · intro u u' d s c
    unfold calculate_teg_recovery
    constructor <;> ring

/-- C4: the end-to-end example: temp=600, wasted=80, device=15, system=20,
pipe_health=100, storage=500 gives geo_output=300, waste_output=56,
teg_recovery=124.60, pipe_efficiency=1.0, total_output=480.60, charge=480.60,
discharge=360.45. -/
theorem pipeline_example_600_80_15_20_100_500 :
    evaluate ⟨600, 80, 15, 20, 100, 500⟩ =
      { geo_output := 300
        waste_output := 56
        teg_recovery := 124.60
        pipe_status_msg := "✅ Pipe health optimal."
        pipe_efficiency := 1.0
        total_output := 480.60
        charge := 480.60
        discharge := 360.45 } := by
  simp only [evaluate, geothermal_energy, wasted_energy_recovery, calculate_teg_recovery,
    monitor_pipe]
  norm_num [Outputs.mk.injEq, min_def]

/-- C5: for all temp in [300, 900], `geothermal_energy(temp) = 0.5 * temp`,
and `geothermal_energy` is monotone non-decreasing on that interval. -/
theorem geothermal_energy_formula_monotone (t t' : ℚ)
    (h1 : 300 ≤ t) (h2 : t ≤ 900) (h1' : 300 ≤ t') (h2' : t' ≤ 900) (hle : t ≤ t') :
    geothermal_energy t = 0.5 * t ∧ geothermal_energy t ≤ geothermal_energy t' := by
  unfold geothermal_energy
  exact ⟨rfl, by linarith⟩

/-- Witness for C5 at t = 400, t' = 500. -/
theorem geothermal_energy_formula_monotone_witness :
    geothermal_energy 400 = 0.5 * 400 ∧ geothermal_energy 400 ≤ geothermal_energy 500 :=
  geothermal_energy_formula_monotone 400 500 (by norm_num) (by norm_num) (by norm_num)
    (by norm_num) (by norm_num)

/-- C6: for all wasted in [10, 200], `wasted_energy_recovery(wasted) = 0.7 * wasted`. -/
theorem wasted_energy_recovery_formula (w : ℚ) (h1 : 10 ≤ w) (h2 : w ≤ 200) :
    wasted_energy_recovery w = 0.7 * w := rfl

/-- Witness for C6 at w = 50. -/
theorem wasted_energy_recovery_formula_witness :
    wasted_energy_recovery 50 = 0.7 * 50 :=
  wasted_energy_recovery_formula 50 (by norm_num) (by norm_num)

/-- C7: within the §3 slider ranges every derived output is nonnegative and
`pipe_efficiency` is one of 0.6, 0.8, 1.0. -/
theorem outputs_nonneg_and_efficiency_range (i : Inputs) (h : InRange i) :
    0 ≤ (evaluate i).geo_output ∧ 0 ≤ (evaluate i).waste_output ∧
    0 ≤ (evaluate i).teg_recovery ∧ 0 ≤ (evaluate i).total_output ∧
    0 ≤ (evaluate i).charge ∧ 0 ≤ (evaluate i).discharge ∧
    ((evaluate i).pipe_efficiency = 0.6 ∨ (evaluate i).pipe_efficiency = 0.8 ∨
      (evaluate i).pipe_efficiency = 1.0) := by
  obtain ⟨ht1, ht2, hw1, hw2, hd1, hd2, hs1, hs2, hp1, hp2, hc1, hc2⟩ := h
  have heff : (monitor_pipe i.pipe_health).2 = 0.6 ∨ (monitor_pipe i.pipe_health).2 = 0.8 ∨
      (monitor_pipe i.pipe_health).2 = 1.0 := by
    unfold monitor_pipe
    split_ifs <;> simp
  have heffnn : 0 ≤ (monitor_pipe i.pipe_health).2 := by
    rcases heff with h | h | h <;> rw [h] <;> norm_num
  have hgeo : (0:ℚ) ≤ 0.5 * i.geothermal_temp := by linarith
  have hwaste : (0:ℚ) ≤ 0.7 * i.wasted_energy_input := by linarith
  have hteg : (0:ℚ) ≤ (0.7 * i.wasted_energy_input + 0.5 * i.geothermal_temp) *
      (i.teg_device_level + i.teg_system_level) / 100 :=
    div_nonneg (mul_nonneg (by linarith) (by linarith)) (by norm_num)
  have htotal : (0:ℚ) ≤ (0.5 * i.geothermal_temp + 0.7 * i.wasted_energy_input +
      (0.7 * i.wasted_energy_input + 0.5 * i.geothermal_temp) *
        (i.teg_device_level + i.teg_system_level) / 100) * (monitor_pipe i.pipe_health).2 :=
    mul_nonneg (by linarith) heffnn
  have hcharge : (0:ℚ) ≤ min ((0.5 * i.geothermal_temp + 0.7 * i.wasted_energy_input +
      (0.7 * i.wasted_energy_input + 0.5 * i.geothermal_temp) *
        (i.teg_device_level + i.teg_system_level) / 100) * (monitor_pipe i.pipe_health).2)
      i.storage_capacity :=
    le_min htotal (by linarith)
  simp only [evaluate, geothermal_energy, wasted_energy_recovery, calculate_teg_recovery]
  exact ⟨hgeo, hwaste, hteg, htotal, hcharge, mul_nonneg hcharge (by norm_num), heff⟩

/-- Witness for C7 at the default slider values. -/
theorem outputs_nonneg_and_efficiency_range_witness :
    InRange ⟨600, 80, 15, 20, 100, 500⟩ ∧
    0 ≤ (evaluate ⟨600, 80, 15, 20, 100, 500⟩).discharge :=
  ⟨by norm_num [InRange],
    (outputs_nonneg_and_efficiency_range ⟨600, 80, 15, 20, 100, 500⟩
      (by norm_num [InRange])).2.2.2.2.2.1⟩

/-- C8: for every `total_output` and hour `h`, the charted series satisfies
`generation(h) = total_output * sin(pi * h / 24) ^ 2`; in particular
`generation(0) = 0` and `generation(12) = total_output`. -/
theorem generation_series (t : ℝ) :
    (∀ h : ℕ, generation t h = t * Real.sin (Real.pi * h / 24) ^ 2) ∧
    generation t 0 = 0 ∧ generation t 12 = t := by
  refine ⟨fun h => rfl, ?_, ?_⟩
  · simp [generation]
  · unfold generation
    have h12 : Real.pi * ((12:ℕ):ℝ) / 24 = Real.pi / 2 := by push_cast; ring
    rw [h12, Real.sin_pi_div_two, one_pow, mul_one]

/-- C9: the pipeline is deterministic and stateless: its outputs (all seven
numeric values and the status string) are a function of the six inputs alone,
so two evaluations with identical inputs agree on everything. -/
theorem pipeline_deterministic (i j : Inputs)
    (h1 : i.geothermal_temp = j.geothermal_temp)
    (h2 : i.wasted_energy_input = j.wasted_energy_input)
    (h3 : i.teg_device_level = j.teg_device_level)
    (h4 : i.teg_system_level = j.teg_system_level)
    (h5 : i.pipe_health = j.pipe_health)
    (h6 : i.storage_capacity = j.storage_capacity) :
    (evaluate i).geo_output = (evaluate j).geo_output ∧
    (evaluate i).waste_output = (evaluate j).waste_output ∧
    (evaluate i).teg_recovery = (evaluate j).teg_recovery ∧
    (evaluate i).pipe_status_msg = (evaluate j).pipe_status_msg ∧
    (evaluate i).pipe_efficiency = (evaluate j).pipe_efficiency ∧
    (evaluate i).total_output = (evaluate j).total_output ∧
    (evaluate i).charge = (evaluate j).charge ∧
    (evaluate i).discharge = (evaluate j).discharge := by
  have hij : i = j := by
    cases i; cases j
    simp_all
  rw [hij]
  exact ⟨rfl, rfl, rfl, rfl, rfl, rfl, rfl, rfl⟩

/-- Witness for C9 at the default slider values. -/
theorem pipeline_deterministic_witness :
    (evaluate ⟨600, 80, 15, 20, 100, 500⟩).discharge =
      (evaluate ⟨600, 80, 15, 20, 100, 500⟩).discharge :=
  (pipeline_deterministic ⟨600, 80, 15, 20, 100, 500⟩ ⟨600, 80, 15, 20, 100, 500⟩
    rfl rfl rfl rfl rfl rfl).2.2.2.2.2.2.2

/-- C10: no input validation: the embedded functions are total over all
rationals, out-of-range inputs go through the same formulas: any
health ≥ 70 (even above 100) is classified optimal with factor 1.0, any
health < 40 (even negative) is the warning with factor 0.6, and a negative
temperature yields a negative geo_output. -/
theorem no_input_validation :
    (∀ health : ℚ, 70 ≤ health →
      monitor_pipe health = ("✅ Pipe health optimal.", 1.0)) ∧
    (∀ health : ℚ, health < 40 →
      monitor_pipe health = ("⚠️ Warning: Pipe needs replacement!", 0.6)) ∧
    (∀ temp : ℚ, temp < 0 → geothermal_energy temp < 0) := by
  refine ⟨?_, ?_, ?_⟩
  · intro health h
    simp [monitor_pipe, not_lt.mpr (by linarith : (40:ℚ) ≤ health), not_lt.mpr h]
  · intro health h
    simp [monitor_pipe, h]
  · intro temp h
    unfold geothermal_energy
    nlinarith

/-- Witness for C10 at health = 150, health = -5, temp = -10. -/
theorem no_input_validation_witness :
    monitor_pipe 150 = ("✅ Pipe health optimal.", 1.0) ∧
    monitor_pipe (-5) = ("⚠️ Warning: Pipe needs replacement!", 0.6) ∧
    geothermal_energy (-10) < 0 :=
  ⟨no_input_validation.1 150 (by norm_num), no_input_validation.2.1 (-5) (by norm_num),
    no_input_validation.2.2 (-10) (by norm_num)⟩

end GeoApp
